import Mathlib

/-!
Shallow embedding of the `rankcard` library (primary source:
`src/src/index.ts`, whose second half defines the `RankCard` class).

Modelling conventions:
* JavaScript numbers are modelled as rationals (`ℚ`); the code never uses
  `NaN`/`Infinity` on the paths embedded here.
* JavaScript strings are Lean `String`s; where character-level operations
  matter (`substr`, `trim`) we work on the underlying character list.
* Arc angles that the source writes as multiples of `Math.PI` are recorded
  as the rational coefficient of `π` (so `1.5 * Math.PI` is stored as `1.5`).
* The asynchronous `Canvas.loadImage` is an explicit parameter returning
  `Except`; a rejected promise is `Except.error`, so the `build` method is a
  function into `Except` and a rejected render produces no operation trace.
-/

/-- A JavaScript string-or-Buffer value (TypeScript type `string | Buffer`). -/
inductive StrOrBuf where
  | str (s : String)
  | buf (bytes : List Nat)
deriving DecidableEq

/-- The unchecked TypeScript cast `value as string` used when the background
value is assigned to `ctx.fillStyle`; a `Buffer` is modelled opaquely. -/
def StrOrBuf.asString : StrOrBuf → String
  | StrOrBuf.str s => s
  | StrOrBuf.buf _ => "[object Buffer]"

/-- A JavaScript string-or-string-array value (type `string | string[]`),
the type of the progress bar's colour value. -/
inductive StrOrStrs where
  | str (s : String)
  | strs (l : List String)
deriving DecidableEq

/-- The unchecked cast `value as string` in the solid-colour branch of the
progress-bar colour resolution. -/
def StrOrStrs.asStr : StrOrStrs → String
  | StrOrStrs.str s => s
  | StrOrStrs.strs _ => "[object Array]"

/-- The unchecked cast `value as string[]` in the gradient branch of the
progress-bar colour resolution. -/
def StrOrStrs.asStrs : StrOrStrs → List String
  | StrOrStrs.str _ => []
  | StrOrStrs.strs l => l

/-- Whitespace recognised by JavaScript `String.prototype.trim`. -/
def isJsWhitespace (c : Char) : Bool :=
  c = ' ' || c = '\t' || c = '\n' || c = '\r' ||
  c = '\x0B' || c = '\x0C' || c = '\u00A0' || c = '\uFEFF'

/-- JavaScript `String.prototype.trim` on a character list: drop whitespace
from both ends. -/
def jsTrim (s : List Char) : List Char :=
  ((s.dropWhile isJsWhitespace).reverse.dropWhile isJsWhitespace).reverse

/-- The module-level `shorten` helper of `src/src/index.ts`:
`if (text.length <= len) return text; return text.substr(0, len).trim() + '...'`. -/
def shorten (text : List Char) (len : Nat) : List Char :=
  if text.length ≤ len then text
  else jsTrim (text.take len) ++ ['.', '.', '.']

/-- JavaScript `x || d` on finite numbers: `0` is falsy, everything else
truthy. -/
def jsOrNum (x d : ℚ) : ℚ := if x = 0 then d else x

/-- JavaScript truthiness of an optional number (`rank ? true : false`):
`undefined` and `0` are falsy, every other number is truthy. -/
def jsTruthyOptNum : Option ℚ → Bool
  | none => false
  | some r => decide (r ≠ 0)

/-- Discord presence status, the five values handled by the library. -/
inductive PresenceStatus where
  | online
  | idle
  | dnd
  | offline
  | streaming
deriving DecidableEq

/-- The module-level `STATUS_COLOURS` table of `src/src/index.ts`
(note the `idle` entry lacks a leading `#` in the source). -/
def STATUS_COLOURS : PresenceStatus → String
  | PresenceStatus.online => "#43b581"
  | PresenceStatus.idle => "faa61a"
  | PresenceStatus.dnd => "#f04747"
  | PresenceStatus.offline => "#747f8e"
  | PresenceStatus.streaming => "#593595"

/-- The TypeScript `BackgroundType` union. -/
inductive BackgroundType where
  | image
  | colour
deriving DecidableEq

/-- The TypeScript `ProgressType` union. -/
inductive ProgressType where
  | gradient
  | colour
deriving DecidableEq

/-- The TypeScript `PartialPiece<K>` interface. -/
structure PartialPiece (K : Type) where
  data : K
  colour : String
  size : ℚ

/-- The TypeScript `Piece<K>` interface (`PartialPiece` plus visibility). -/
structure Piece (K : Type) where
  data : K
  colour : String
  size : ℚ
  display : Bool
  displayText : String

/-- The `background` field of `CardData`. -/
structure Background where
  type : BackgroundType
  value : StrOrBuf

/-- The `progressBar.track` field of `CardData`. -/
structure Track where
  colour : String

/-- The `progressBar.bar` field of `CardData`. -/
structure Bar where
  type : ProgressType
  value : StrOrStrs

/-- The `progressBar` field of `CardData`. -/
structure ProgressBarData where
  rounded : Bool
  x : ℚ
  y : ℚ
  height : ℚ
  width : ℚ
  track : Track
  bar : Bar

/-- The `avatar` field of `CardData`. -/
structure AvatarData where
  source : StrOrBuf
  x : ℚ
  y : ℚ
  height : ℚ
  width : ℚ

/-- The `status` field of `CardData`. -/
structure StatusData where
  width : ℚ
  type : PresenceStatus
  colour : String
  circle : Bool

/-- The `overlay` field of `CardData` (the source calls the opacity `level`). -/
structure OverlayData where
  display : Bool
  level : ℚ
  colour : String

/-- The TypeScript `CardData` interface, the private state of a `RankCard`.
The `rank` piece holds an optional number because the constructor stores the
possibly-`undefined` input rank in it. -/
structure CardData where
  width : ℚ
  height : ℚ
  background : Background
  progressBar : ProgressBarData
  avatar : AvatarData
  status : StatusData
  overlay : OverlayData
  rank : Piece (Option ℚ)
  level : Piece ℚ
  currentXP : PartialPiece ℚ
  requiredXP : PartialPiece ℚ
  discriminator : PartialPiece String
  username : PartialPiece String

/-- A Discord user as read by the constructor. -/
structure User where
  username : String
  discriminator : String
  avatarURL : StrOrBuf

/-- A Discord guild member as read by the constructor. -/
structure GuildMember where
  user : User
  presenceStatus : PresenceStatus

/-- A font registration record (registration is a process-global side effect
with no influence on the card data, so it is carried but not interpreted). -/
structure Font where
  path : String
  family : String
  weight : Option String
  style : Option String

/-- The TypeScript `Input` interface of the `RankCard` constructor.
Optional fields are `Option`s. -/
structure Input where
  level : ℚ
  xpForLevel : ℚ → ℚ
  user : GuildMember
  rank : Option ℚ
  fonts : List Font
  usernameLength : Option Nat
  stripAccents : Option Bool

/-- The `RankCard` constructor of `src/src/index.ts` (lines 239-342): it
parses the username with `shorten` (default length 15), optionally strips
accents (the external `accents` package is a parameter), and fills every
`CardData` field with the source's default values. Font registration is a
side effect with no data content and is omitted. -/
def RankCard.init (accentsFn : String → String) (input : Input) : CardData :=
  let parsedUsername : String :=
    String.mk (shorten input.user.user.username.data (input.usernameLength.getD 15))
  { width := 934
    height := 282
    background := { type := BackgroundType.colour, value := StrOrBuf.str "#23272a" }
    progressBar :=
      { rounded := true
        x := 275.5
        y := 183.75
        height := 37.5
        width := 596.5
        track := { colour := "#484b4e" }
        bar := { type := ProgressType.colour, value := StrOrStrs.str "#ffffff" } }
    avatar :=
      { source := input.user.user.avatarURL, x := 70, y := 50, height := 180, width := 180 }
    status :=
      { width := 5
        type := input.user.presenceStatus
        colour := STATUS_COLOURS input.user.presenceStatus
        circle := false }
    rank :=
      { display := jsTruthyOptNum input.rank
        data := input.rank
        colour := "#ffffff"
        displayText := "Rank"
        size := 54 }
    level :=
      { display := true
        data := input.level
        colour := "#ffffff"
        displayText := "Level"
        size := 54 }
    overlay := { display := true, level := 0.5, colour := "#333640" }
    currentXP := { data := input.xpForLevel input.level, colour := "#ffffff", size := 48 }
    requiredXP := { data := input.xpForLevel (input.level + 1), colour := "#ffffff", size := 48 }
    discriminator := { data := input.user.user.discriminator, colour := "#ffffff", size := 60 }
    username :=
      { data :=
          if input.stripAccents.getD false then accentsFn parsedUsername else parsedUsername
        colour := "#ffffff"
        size := 60 } }

/-- The private `RankCard.calculateProgress` method (lines 349-360 of
`src/src/index.ts`): note it returns the constant `1` when the required XP is
non-positive, and otherwise a pixel width clamped to the bar width. -/
def RankCard.calculateProgress (d : CardData) : ℚ :=
  let cx := d.currentXP.data
  let rx := d.requiredXP.data
  if rx ≤ 0 then 1
  else if cx > rx then d.progressBar.width
  else
    let width := cx * 615 / rx
    if width > d.progressBar.width then d.progressBar.width else width

/-- The `RankCard.setBackground` setter: overwrites `background.type` and
`background.value` and returns the (mutated) card. -/
def RankCard.setBackground (d : CardData) (type : BackgroundType) (value : StrOrBuf) :
    CardData :=
  { d with background := { type := type, value := value } }

/-- The `RankCard.setOverlay` setter: overwrites the overlay colour, display
flag and level. The source defaults `level` to `0.5` and `display` to `true`;
defaults are passed explicitly here. -/
def RankCard.setOverlay (d : CardData) (colour : String) (level : ℚ) (display : Bool) :
    CardData :=
  { d with overlay := { display := display, level := level, colour := colour } }

/-- The `RankCard.setProgressBar` setter: overwrites `progressBar.bar.type`,
`progressBar.bar.value` and `progressBar.rounded`. The source defaults
`rounded` to `true`; the default is passed explicitly here. -/
def RankCard.setProgressBar (d : CardData) (type : ProgressType) (value : StrOrStrs)
    (rounded : Bool) : CardData :=
  { d with progressBar :=
      { d.progressBar with bar := { type := type, value := value }, rounded := rounded } }

/-- The `RankCard.setProgressBarTrack` setter: overwrites
`progressBar.track.colour`. -/
def RankCard.setProgressBarTrack (d : CardData) (colour : String) : CardData :=
  { d with progressBar := { d.progressBar with track := { colour := colour } } }

/-- An opaque decoded image, the result of `Canvas.loadImage`. -/
structure Image where
  tag : String
deriving DecidableEq

/-- The error carried by a rejected `Canvas.loadImage` promise. -/
inductive ImageError where
  | loadFailed (source : StrOrBuf)
deriving DecidableEq

/-- The TypeScript `BuildFonts` interface. -/
structure BuildFonts where
  bold : String
  regular : String

/-- A segment of the canvas path being built (`ctx.arc` / `ctx.closePath`).
Angles are stored as coefficients of `π`. -/
inductive PathSeg where
  | arc (x y r aStartPi aEndPi : ℚ) (anticlockwise : Bool)
  | close
deriving DecidableEq

/-- A canvas fill style: a colour string, or the radial gradient the source
builds with `createRadialGradient(calculateProgress(), 0, 500, 0)` plus
`addColorStop(i, colour)` for each stop. -/
inductive FillStyle where
  | colour (c : String)
  | gradient (x0 y0 r0 x1 : ℚ) (stops : List (Nat × String))
deriving DecidableEq

/-- A drawing operation issued against the 2D context, recording the context
state it was issued under (global alpha, style, active clip regions, …). -/
inductive CtxOp where
  | drawImage (alpha : ℚ) (clips : List (List PathSeg)) (img : Image) (x y w h : ℚ)
  | fillRect (alpha : ℚ) (style : FillStyle) (x y w h : ℚ)
  | strokeRect (alpha : ℚ) (strokeStyle : String) (lineWidth : ℚ) (x y w h : ℚ)
  | fillText (alpha : ℚ) (style : FillStyle) (font : String) (textAlign : String)
      (text : String) (x y : ℚ)
  | fillPath (alpha : ℚ) (style : FillStyle) (path : List PathSeg)
  | strokePath (alpha : ℚ) (strokeStyle : String) (lineWidth : ℚ) (path : List PathSeg)
deriving DecidableEq

/-- The global alpha a drawing operation was issued under. -/
def opAlpha : CtxOp → ℚ
  | CtxOp.drawImage a _ _ _ _ _ _ => a
  | CtxOp.fillRect a _ _ _ _ _ => a
  | CtxOp.strokeRect a _ _ _ _ _ _ => a
  | CtxOp.fillText a _ _ _ _ _ _ => a
  | CtxOp.fillPath a _ _ => a
  | CtxOp.strokePath a _ _ _ => a

/-- The mutable style state of a 2D canvas context (the subset the source
touches), saved and restored by `ctx.save()` / `ctx.restore()`. -/
structure CtxState where
  globalAlpha : ℚ
  fillStyle : FillStyle
  strokeStyle : String
  lineWidth : ℚ
  font : String
  textAlign : String
  clips : List (List PathSeg)

/-- A 2D canvas context: current style state, the save/restore stack, the
current path, and the trace of drawing operations issued so far. -/
structure Canvas2D where
  state : CtxState
  stack : List CtxState
  path : List PathSeg
  ops : List CtxOp

/-- A freshly created context (`createCanvas(...).getContext('2d')`). -/
def Canvas2D.init : Canvas2D :=
  { state :=
      { globalAlpha := 1
        fillStyle := FillStyle.colour "#000000"
        strokeStyle := "#000000"
        lineWidth := 1
        font := "10px sans-serif"
        textAlign := "start"
        clips := [] }
    stack := []
    path := []
    ops := [] }

/-- Assignment `ctx.globalAlpha = a`. -/
def Canvas2D.setGlobalAlpha (c : Canvas2D) (a : ℚ) : Canvas2D :=
  { c with state := { c.state with globalAlpha := a } }

/-- Assignment `ctx.fillStyle = s`. -/
def Canvas2D.setFillStyle (c : Canvas2D) (s : FillStyle) : Canvas2D :=
  { c with state := { c.state with fillStyle := s } }

/-- Assignment `ctx.strokeStyle = s`. -/
def Canvas2D.setStrokeStyle (c : Canvas2D) (s : String) : Canvas2D :=
  { c with state := { c.state with strokeStyle := s } }

/-- Assignment `ctx.lineWidth = w`. -/
def Canvas2D.setLineWidth (c : Canvas2D) (w : ℚ) : Canvas2D :=
  { c with state := { c.state with lineWidth := w } }

/-- Assignment `ctx.font = f`. -/
def Canvas2D.setFont (c : Canvas2D) (f : String) : Canvas2D :=
  { c with state := { c.state with font := f } }

/-- Assignment `ctx.textAlign = t`. -/
def Canvas2D.setTextAlign (c : Canvas2D) (t : String) : Canvas2D :=
  { c with state := { c.state with textAlign := t } }

/-- The call `ctx.save()`. -/
def Canvas2D.save (c : Canvas2D) : Canvas2D :=
  { c with stack := c.state :: c.stack }

/-- The call `ctx.restore()` (a no-op on an empty stack, as in canvas). -/
def Canvas2D.restore (c : Canvas2D) : Canvas2D :=
  match c.stack with
  | [] => c
  | s :: rest => { c with state := s, stack := rest }

/-- The call `ctx.beginPath()`. -/
def Canvas2D.beginPath (c : Canvas2D) : Canvas2D :=
  { c with path := [] }

/-- The call `ctx.closePath()`. -/
def Canvas2D.closePath (c : Canvas2D) : Canvas2D :=
  { c with path := c.path ++ [PathSeg.close] }

/-- The call `ctx.arc(x, y, r, a1, a2, ccw)`; angles as coefficients of `π`. -/
def Canvas2D.arc (c : Canvas2D) (x y r a1 a2 : ℚ) (ccw : Bool) : Canvas2D :=
  { c with path := c.path ++ [PathSeg.arc x y r a1 a2 ccw] }

/-- The call `ctx.clip()`: intersect the clip region with the current path. -/
def Canvas2D.clip (c : Canvas2D) : Canvas2D :=
  { c with state := { c.state with clips := c.state.clips ++ [c.path] } }

/-- The call `ctx.fill()`: fill the current path under the current state. -/
def Canvas2D.fill (c : Canvas2D) : Canvas2D :=
  { c with ops := c.ops ++ [CtxOp.fillPath c.state.globalAlpha c.state.fillStyle c.path] }

/-- The call `ctx.stroke()`: stroke the current path under the current state. -/
def Canvas2D.stroke (c : Canvas2D) : Canvas2D :=
  { c with ops :=
      c.ops ++ [CtxOp.strokePath c.state.globalAlpha c.state.strokeStyle c.state.lineWidth c.path] }

/-- The call `ctx.fillRect(x, y, w, h)`. -/
def Canvas2D.fillRect (c : Canvas2D) (x y w h : ℚ) : Canvas2D :=
  { c with ops := c.ops ++ [CtxOp.fillRect c.state.globalAlpha c.state.fillStyle x y w h] }

/-- The call `ctx.strokeRect(x, y, w, h)`. -/
def Canvas2D.strokeRect (c : Canvas2D) (x y w h : ℚ) : Canvas2D :=
  { c with ops :=
      c.ops ++ [CtxOp.strokeRect c.state.globalAlpha c.state.strokeStyle c.state.lineWidth x y w h] }

/-- The call `ctx.fillText(text, x, y)`. -/
def Canvas2D.fillText (c : Canvas2D) (text : String) (x y : ℚ) : Canvas2D :=
  { c with ops :=
      c.ops ++ [CtxOp.fillText c.state.globalAlpha c.state.fillStyle c.state.font
        c.state.textAlign text x y] }

/-- The call `ctx.drawImage(img, x, y, w, h)` (recording the active clips). -/
def Canvas2D.drawImage (c : Canvas2D) (img : Image) (x y w h : ℚ) : Canvas2D :=
  { c with ops :=
      c.ops ++ [CtxOp.drawImage c.state.globalAlpha c.state.clips img x y w h] }

/-- The template string for a font assignment, `(size)px (family)`. -/
def fontSpec (size : ℚ) (family : String) : String :=
  toString size ++ "px " ++ family

/-- The part of `RankCard.build` after the global-alpha reset (drawing the
username, discriminator, avatar, status, progress bar, level and rank; lines
473-593 of `src/src/index.ts`). `loadImage` stands for `Canvas.loadImage`,
`meas` for `ctx.measureText` (current font, then text, to measured width) and
`abbrev2` for the external `number-abbreviate` package (an absent rank is an
`undefined` argument, hence the `Option`; the always-present level is passed
wrapped in `some`). -/
def RankCard.buildRest (loadImage : StrOrBuf → Except ImageError Image)
    (meas : String → String → ℚ) (abbrev2 : Option ℚ → String)
    (d : CardData) (fonts : BuildFonts) (ctx : Canvas2D) : Except ImageError Canvas2D :=
  let ctx := ((ctx.setFont (fontSpec d.username.size fonts.bold)).setFillStyle
    (FillStyle.colour d.username.colour)).setTextAlign "start"
  let ctx := ctx.fillText d.username.data 275.5 164
  let ctx := ((ctx.setFont (fontSpec d.discriminator.size fonts.regular)).setFillStyle
    (FillStyle.colour d.discriminator.colour)).setTextAlign "center"
  let ctx := ctx.fillText ("#" ++ d.discriminator.data)
    (meas ctx.state.font d.username.data + 365) 164
  let ctx := ((((ctx.save).beginPath).arc 135 145 100 0 2 true).closePath).clip
  match loadImage d.avatar.source with
  | Except.error e => Except.error e
  | Except.ok avatar =>
    let ctx := ctx.drawImage avatar 35 45 (d.avatar.width + 20) (d.avatar.height + 20)
    let ctx := ctx.restore
    let ctx :=
      if d.status.circle then
        ((((ctx.beginPath).setFillStyle (FillStyle.colour d.status.colour)).arc
          215 205 20 0 2 false).fill).closePath
      else
        ((((ctx.beginPath).arc 135 145 100 0 2 true).setStrokeStyle
          d.status.colour).setLineWidth d.status.width).stroke
    let barColour : FillStyle :=
      if d.progressBar.bar.type = ProgressType.gradient then
        FillStyle.gradient (RankCard.calculateProgress d) 0 500 0
          (d.progressBar.bar.value.asStrs.enum)
      else
        FillStyle.colour d.progressBar.bar.value.asStr
    let ctx := ctx.beginPath
    let ctx :=
      if d.progressBar.rounded then
        let ctx := (((((ctx.setFillStyle (FillStyle.colour d.progressBar.track.colour)).arc
          275.5 202.25 18.5 1.5 0.5 true).fill).fillRect 275.5 183.75 596.5 37.5).arc
          872 202.25 18.75 1.5 0.5 false).fill
        let ctx := ctx.beginPath
        (((((ctx.setFillStyle barColour).arc 275.5 202.25 18.5 1.5 0.5 true).fill).fillRect
          275.5 183.75 (RankCard.calculateProgress d) 37.5).arc
          (275.5 + RankCard.calculateProgress d) 202.25 18.75 1.5 0.5 false).fill
      else
        let ctx := (ctx.setFillStyle barColour).fillRect d.progressBar.x d.progressBar.y
          (RankCard.calculateProgress d) d.progressBar.height
        (((ctx.beginPath).setStrokeStyle d.progressBar.track.colour).setLineWidth 7).strokeRect
          d.progressBar.x d.progressBar.y d.progressBar.width d.progressBar.height
    let ctx :=
      if d.level.display then
        ((ctx.setFont (fontSpec d.level.size fonts.bold)).setFillStyle
          (FillStyle.colour d.level.colour)).fillText
          (d.level.displayText ++ " " ++ abbrev2 (some d.level.data)) 350 85
      else ctx
    let ctx :=
      if d.rank.display then
        let ctx := ((ctx.save).setFont ("bold " ++ fontSpec d.rank.size fonts.bold)).setFillStyle
          (FillStyle.colour d.rank.colour)
        let rankText := d.rank.displayText ++ " " ++ abbrev2 d.rank.data
        (ctx.fillText rankText (950 - meas ctx.state.font rankText) 85).restore
      else ctx
    Except.ok ctx

/-- The `RankCard.build` method (lines 446-597 of `src/src/index.ts`): draw
the background (loading it first when its type is `image`), then the overlay
(global alpha `overlay.level || 1`), reset the global alpha to `1`, and run
the rest of the pipeline. A failed image load rejects the whole build, so no
operation trace (the model of the returned buffer) is produced. -/
def RankCard.build (loadImage : StrOrBuf → Except ImageError Image)
    (meas : String → String → ℚ) (abbrev2 : Option ℚ → String)
    (d : CardData) (fonts : BuildFonts) : Except ImageError (List CtxOp) :=
  let ctx := Canvas2D.init
  let bgRes : Except ImageError Canvas2D :=
    match d.background.type with
    | BackgroundType.image =>
      match loadImage d.background.value with
      | Except.error e => Except.error e
      | Except.ok bg => Except.ok (ctx.drawImage bg 0 0 d.width d.height)
    | BackgroundType.colour =>
      Except.ok ((ctx.setFillStyle
        (FillStyle.colour d.background.value.asString)).fillRect 0 0 d.width d.height)
  match bgRes with
  | Except.error e => Except.error e
  | Except.ok ctx =>
    let ctx :=
      if d.overlay.display then
        (((ctx.setGlobalAlpha (jsOrNum d.overlay.level 1)).setFillStyle
          (FillStyle.colour d.overlay.colour)).fillRect 20 20 (d.width - 40) (d.height - 40))
      else ctx
    let ctx := ctx.setGlobalAlpha 1
    match RankCard.buildRest loadImage meas abbrev2 d fonts ctx with
    | Except.error e => Except.error e
    | Except.ok ctx => Except.ok ctx.ops

/-- A concrete guild member used by concrete instances below. -/
def memberTest : GuildMember :=
  { user := { username := "Test", discriminator := "0001",
              avatarURL := StrOrBuf.str "avatar.png" }
    presenceStatus := PresenceStatus.online }

/-- A concrete constructor input with a supplied (positive) rank. -/
def inputRank3 : Input :=
  { level := 5
    xpForLevel := fun x => x * x
    user := memberTest
    rank := some 3
    fonts := []
    usernameLength := none
    stripAccents := none }

/-- A concrete constructor input whose XP curve is constantly zero, so that
`requiredXP = 0`. -/
def inputZeroXP : Input :=
  { level := 0
    xpForLevel := fun _ => 0
    user := memberTest
    rank := none
    fonts := []
    usernameLength := none
    stripAccents := none }

/-- The card built from `inputZeroXP`. -/
def cardZeroXP : CardData := RankCard.init id inputZeroXP

/-- C4: the status-colour lookup `STATUS_COLOURS` is a pure total function
over the five status values, returning a fixed colour string for each (a Lean
function is deterministic by construction, which models that repeated calls
agree); for `online` it returns `#43b581`. -/
theorem statusColours_fixed_table :
    STATUS_COLOURS PresenceStatus.online = "#43b581" ∧
    STATUS_COLOURS PresenceStatus.idle = "faa61a" ∧
    STATUS_COLOURS PresenceStatus.dnd = "#f04747" ∧
    STATUS_COLOURS PresenceStatus.offline = "#747f8e" ∧
    STATUS_COLOURS PresenceStatus.streaming = "#593595" ∧
    ∀ s : PresenceStatus,
      STATUS_COLOURS s ∈ ["#43b581", "faa61a", "#f04747", "#747f8e", "#593595"] := by
  refine ⟨rfl, rfl, rfl, rfl, rfl, ?_⟩
  intro s
  cases s <;> simp [STATUS_COLOURS]

/-- C6: the constructed card's `currentXP` is `xpForLevel(level)` and its
`requiredXP` is `xpForLevel(level + 1)`. -/
theorem init_xp_fields (accentsFn : String → String) (input : Input) :
    (RankCard.init accentsFn input).currentXP.data = input.xpForLevel input.level ∧
    (RankCard.init accentsFn input).requiredXP.data = input.xpForLevel (input.level + 1) :=
  ⟨rfl, rfl⟩

/-- C5: when every supplied rank is positive (rank is an optional positive
integer), the rank piece's display flag is true exactly when a rank was
supplied, and the level piece's display flag defaults to true. -/
theorem init_rank_level_display (accentsFn : String → String) (input : Input)
    (hpos : ∀ r, input.rank = some r → 0 < r) :
    ((RankCard.init accentsFn input).rank.display = true ↔ input.rank.isSome = true) ∧
    (RankCard.init accentsFn input).level.display = true := by
  refine ⟨?_, rfl⟩
  show jsTruthyOptNum input.rank = true ↔ input.rank.isSome = true
  cases h : input.rank with
  | none => simp [jsTruthyOptNum]
  | some r =>
    have hr := hpos r h
    simp only [jsTruthyOptNum, Option.isSome_some, decide_eq_true_eq, iff_true]
    exact ne_of_gt hr

/-- Witness for C5 at a concrete input with rank 3. -/
theorem init_rank_level_display_witness :
    ((RankCard.init id inputRank3).rank.display = true ↔ inputRank3.rank.isSome = true) ∧
    (RankCard.init id inputRank3).level.display = true :=
  init_rank_level_display id inputRank3
    (by intro r h; simp only [inputRank3] at h; rw [Option.some.injEq] at h; subst h; norm_num)

/-- C7: every builder setter mutates exactly its own logical field group and
leaves every other field of the card data unchanged. In-place mutation plus
`return this` is modelled by state passing: the value a setter returns is the
card it was called on, after the mutation, which is what makes chaining
possible. -/
theorem setters_frame :
    (∀ (d : CardData) (t : BackgroundType) (v : StrOrBuf),
      (RankCard.setBackground d t v).background.type = t ∧
      (RankCard.setBackground d t v).background.value = v ∧
      (RankCard.setBackground d t v).width = d.width ∧
      (RankCard.setBackground d t v).height = d.height ∧
      (RankCard.setBackground d t v).progressBar = d.progressBar ∧
      (RankCard.setBackground d t v).avatar = d.avatar ∧
      (RankCard.setBackground d t v).status = d.status ∧
      (RankCard.setBackground d t v).overlay = d.overlay ∧
      (RankCard.setBackground d t v).rank = d.rank ∧
      (RankCard.setBackground d t v).level = d.level ∧
      (RankCard.setBackground d t v).currentXP = d.currentXP ∧
      (RankCard.setBackground d t v).requiredXP = d.requiredXP ∧
      (RankCard.setBackground d t v).discriminator = d.discriminator ∧
      (RankCard.setBackground d t v).username = d.username) ∧
    (∀ (d : CardData) (c : String) (l : ℚ) (b : Bool),
      (RankCard.setOverlay d c l b).overlay.colour = c ∧
      (RankCard.setOverlay d c l b).overlay.level = l ∧
      (RankCard.setOverlay d c l b).overlay.display = b ∧
      (RankCard.setOverlay d c l b).width = d.width ∧
      (RankCard.setOverlay d c l b).height = d.height ∧
      (RankCard.setOverlay d c l b).background = d.background ∧
      (RankCard.setOverlay d c l b).progressBar = d.progressBar ∧
      (RankCard.setOverlay d c l b).avatar = d.avatar ∧
      (RankCard.setOverlay d c l b).status = d.status ∧
      (RankCard.setOverlay d c l b).rank = d.rank ∧
      (RankCard.setOverlay d c l b).level = d.level ∧
      (RankCard.setOverlay d c l b).currentXP = d.currentXP ∧
      (RankCard.setOverlay d c l b).requiredXP = d.requiredXP ∧
      (RankCard.setOverlay d c l b).discriminator = d.discriminator ∧
      (RankCard.setOverlay d c l b).username = d.username) ∧
    (∀ (d : CardData) (t : ProgressType) (v : StrOrStrs) (r : Bool),
      (RankCard.setProgressBar d t v r).progressBar.bar.type = t ∧
      (RankCard.setProgressBar d t v r).progressBar.bar.value = v ∧
      (RankCard.setProgressBar d t v r).progressBar.rounded = r ∧
      (RankCard.setProgressBar d t v r).progressBar.x = d.progressBar.x ∧
      (RankCard.setProgressBar d t v r).progressBar.y = d.progressBar.y ∧
      (RankCard.setProgressBar d t v r).progressBar.height = d.progressBar.height ∧
      (RankCard.setProgressBar d t v r).progressBar.width = d.progressBar.width ∧
      (RankCard.setProgressBar d t v r).progressBar.track = d.progressBar.track ∧
      (RankCard.setProgressBar d t v r).width = d.width ∧
      (RankCard.setProgressBar d t v r).height = d.height ∧
      (RankCard.setProgressBar d t v r).background = d.background ∧
      (RankCard.setProgressBar d t v r).avatar = d.avatar ∧
      (RankCard.setProgressBar d t v r).status = d.status ∧
      (RankCard.setProgressBar d t v r).overlay = d.overlay ∧
      (RankCard.setProgressBar d t v r).rank = d.rank ∧
      (RankCard.setProgressBar d t v r).level = d.level ∧
      (RankCard.setProgressBar d t v r).currentXP = d.currentXP ∧
      (RankCard.setProgressBar d t v r).requiredXP = d.requiredXP ∧
      (RankCard.setProgressBar d t v r).discriminator = d.discriminator ∧
      (RankCard.setProgressBar d t v r).username = d.username) ∧
    (∀ (d : CardData) (c : String),
      (RankCard.setProgressBarTrack d c).progressBar.track.colour = c ∧
      (RankCard.setProgressBarTrack d c).progressBar.rounded = d.progressBar.rounded ∧
      (RankCard.setProgressBarTrack d c).progressBar.x = d.progressBar.x ∧
      (RankCard.setProgressBarTrack d c).progressBar.y = d.progressBar.y ∧
      (RankCard.setProgressBarTrack d c).progressBar.height = d.progressBar.height ∧
      (RankCard.setProgressBarTrack d c).progressBar.width = d.progressBar.width ∧
      (RankCard.setProgressBarTrack d c).progressBar.bar = d.progressBar.bar ∧
      (RankCard.setProgressBarTrack d c).width = d.width ∧
      (RankCard.setProgressBarTrack d c).height = d.height ∧
      (RankCard.setProgressBarTrack d c).background = d.background ∧
      (RankCard.setProgressBarTrack d c).avatar = d.avatar ∧
      (RankCard.setProgressBarTrack d c).status = d.status ∧
      (RankCard.setProgressBarTrack d c).overlay = d.overlay ∧
      (RankCard.setProgressBarTrack d c).rank = d.rank ∧
      (RankCard.setProgressBarTrack d c).level = d.level ∧
      (RankCard.setProgressBarTrack d c).currentXP = d.currentXP ∧
      (RankCard.setProgressBarTrack d c).requiredXP = d.requiredXP ∧
      (RankCard.setProgressBarTrack d c).discriminator = d.discriminator ∧
      (RankCard.setProgressBarTrack d c).username = d.username) :=
  ⟨fun _ _ _ => ⟨rfl, rfl, rfl, rfl, rfl, rfl, rfl, rfl, rfl, rfl, rfl, rfl, rfl, rfl⟩,
   fun _ _ _ _ => ⟨rfl, rfl, rfl, rfl, rfl, rfl, rfl, rfl, rfl, rfl, rfl, rfl, rfl, rfl, rfl⟩,
   fun _ _ _ _ => ⟨rfl, rfl, rfl, rfl, rfl, rfl, rfl, rfl, rfl, rfl, rfl, rfl, rfl, rfl, rfl,
     rfl, rfl, rfl, rfl, rfl⟩,
   fun _ _ => ⟨rfl, rfl, rfl, rfl, rfl, rfl, rfl, rfl, rfl, rfl, rfl, rfl, rfl, rfl, rfl, rfl,
     rfl, rfl, rfl⟩⟩

/-- Helper: `calculateProgress` on a constructed card, written out over the
input's XP function (everything here is definitional). -/
theorem calculateProgress_init_eq (accentsFn : String → String) (input : Input) :
    RankCard.calculateProgress (RankCard.init accentsFn input) =
      (if input.xpForLevel (input.level + 1) ≤ 0 then 1
       else if input.xpForLevel input.level > input.xpForLevel (input.level + 1) then (596.5 : ℚ)
       else if input.xpForLevel input.level * 615 / input.xpForLevel (input.level + 1) >
           (596.5 : ℚ) then (596.5 : ℚ)
       else input.xpForLevel input.level * 615 / input.xpForLevel (input.level + 1)) := rfl

/-- C1 (amended): for every constructor input with level `L ≥ 0` and a
non-negative XP curve, the progress width lies in `[0, barWidth]` with
`barWidth = 596.5` the default bar width; it equals `barWidth` whenever
`xpForLevel(L) ≥ xpForLevel(L+1)` and the required XP is positive; and when
the required XP is non-positive it is the constant `1` (one pixel), not the
full bar width. -/
theorem calculateProgress_bounds (accentsFn : String → String) (input : Input)
    (hL : 0 ≤ input.level) (hxp : ∀ x, 0 ≤ input.xpForLevel x) :
    (RankCard.init accentsFn input).progressBar.width = 596.5 ∧
    0 ≤ RankCard.calculateProgress (RankCard.init accentsFn input) ∧
    RankCard.calculateProgress (RankCard.init accentsFn input) ≤
      (RankCard.init accentsFn input).progressBar.width ∧
    (input.xpForLevel (input.level + 1) ≤ 0 →
      RankCard.calculateProgress (RankCard.init accentsFn input) = 1) ∧
    (0 < input.xpForLevel (input.level + 1) →
      input.xpForLevel (input.level + 1) ≤ input.xpForLevel input.level →
      RankCard.calculateProgress (RankCard.init accentsFn input) =
        (RankCard.init accentsFn input).progressBar.width) := by
  have hw : (RankCard.init accentsFn input).progressBar.width = (596.5 : ℚ) := rfl
  rw [calculateProgress_init_eq, hw]
  set cx := input.xpForLevel input.level with hcx
  set rx := input.xpForLevel (input.level + 1) with hrx
  have hcx0 : 0 ≤ cx := hxp input.level
  rcases le_or_lt rx 0 with hrle | hrpos
  · rw [if_pos hrle]
    exact ⟨rfl, by norm_num, by norm_num, fun _ => rfl,
      fun hpos _ => absurd hrle (not_le.mpr hpos)⟩
  · rw [if_neg (not_le.mpr hrpos)]
    rcases lt_or_le rx cx with hgt | hle
    · rw [if_pos hgt]
      exact ⟨rfl, by norm_num, by norm_num, fun hc => absurd hc (not_le.mpr hrpos),
        fun _ _ => rfl⟩
    · rw [if_neg (not_lt.mpr hle)]
      by_cases hbig : cx * 615 / rx > (596.5 : ℚ)
      · rw [if_pos hbig]
        exact ⟨rfl, by norm_num, by norm_num, fun hc => absurd hc (not_le.mpr hrpos),
          fun _ _ => rfl⟩
      · rw [if_neg hbig]
        have hnn : 0 ≤ cx * 615 / rx :=
          div_nonneg (mul_nonneg hcx0 (by norm_num)) hrpos.le
        refine ⟨rfl, hnn, not_lt.mp hbig, fun hc => absurd hc (not_le.mpr hrpos), ?_⟩
        intro _ hge
        exfalso
        have hceq : cx = rx := le_antisymm hle hge
        have h615 : cx * 615 / rx = 615 := by
          rw [hceq, mul_comm, mul_div_assoc, div_self (ne_of_gt hrpos), mul_one]
        rw [h615] at hbig
        norm_num at hbig

/-- Witness for C1 (amended) at the concrete input `inputRank3`
(`xpForLevel(x) = x²`, level 5). -/
theorem calculateProgress_bounds_witness :
    (RankCard.init id inputRank3).progressBar.width = 596.5 ∧
    0 ≤ RankCard.calculateProgress (RankCard.init id inputRank3) ∧
    RankCard.calculateProgress (RankCard.init id inputRank3) ≤
      (RankCard.init id inputRank3).progressBar.width ∧
    (inputRank3.xpForLevel (inputRank3.level + 1) ≤ 0 →
      RankCard.calculateProgress (RankCard.init id inputRank3) = 1) ∧
    (0 < inputRank3.xpForLevel (inputRank3.level + 1) →
      inputRank3.xpForLevel (inputRank3.level + 1) ≤ inputRank3.xpForLevel inputRank3.level →
      RankCard.calculateProgress (RankCard.init id inputRank3) =
        (RankCard.init id inputRank3).progressBar.width) :=
  calculateProgress_bounds id inputRank3 (by norm_num [inputRank3])
    (fun x => mul_self_nonneg x)

/-- Counterexample for C1 as stated: with the constantly-zero XP curve the
required XP is `0 ≤ 0` and `xpForLevel(L) ≥ xpForLevel(L+1)`, yet the
progress computation returns `1`, not the full bar width `596.5`. -/
theorem calculateProgress_zero_required :
    cardZeroXP.requiredXP.data ≤ 0 ∧
    cardZeroXP.requiredXP.data ≤ cardZeroXP.currentXP.data ∧
    cardZeroXP.progressBar.width = 596.5 ∧
    RankCard.calculateProgress cardZeroXP = 1 ∧
    RankCard.calculateProgress cardZeroXP ≠ cardZeroXP.progressBar.width := by
  refine ⟨le_refl 0, le_refl 0, rfl, rfl, ?_⟩
  intro h
  rw [show RankCard.calculateProgress cardZeroXP = 1 from rfl,
    show cardZeroXP.progressBar.width = (596.5 : ℚ) from rfl] at h
  norm_num at h

/-- C2 (amended): `shorten` is idempotent for every max length `n` and every
text whose first `n` characters are unchanged by `trim` (in particular
whenever truncation removes no surrounding whitespace). -/
theorem shorten_idempotent_of_trimmed (t : List Char) (n : ℕ)
    (h : jsTrim (t.take n) = t.take n) :
    shorten (shorten t n) n = shorten t n := by
  by_cases hlen : t.length ≤ n
  · have hs : shorten t n = t := by rw [shorten, if_pos hlen]
    rw [hs]
    exact hs
  · push_neg at hlen
    have htake : (t.take n).length = n := by
      rw [List.length_take]
      exact min_eq_left (le_of_lt hlen)
    have hs : shorten t n = t.take n ++ ['.', '.', '.'] := by
      rw [shorten, if_neg (not_le.mpr hlen), h]
    rw [hs, shorten]
    have hlong : ¬ (t.take n ++ ['.', '.', '.']).length ≤ n := by
      rw [List.length_append, htake]
      simp only [List.length_cons, List.length_nil]
      omega
    rw [if_neg hlong]
    have hpref : (t.take n ++ ['.', '.', '.']).take n = t.take n := by
      have hx := List.take_left (t.take n) ['.', '.', '.']
      rwa [htake] at hx
    rw [hpref, h]

/-- Witness for C2 (amended): a truncation that trims nothing. -/
theorem shorten_idempotent_witness :
    jsTrim ((['H', 'e', 'l', 'l', 'o', 'W', 'o', 'r', 'l', 'd']).take 5) =
      (['H', 'e', 'l', 'l', 'o', 'W', 'o', 'r', 'l', 'd']).take 5 ∧
    shorten (shorten ['H', 'e', 'l', 'l', 'o', 'W', 'o', 'r', 'l', 'd'] 5) 5 =
      shorten ['H', 'e', 'l', 'l', 'o', 'W', 'o', 'r', 'l', 'd'] 5 :=
  ⟨by decide, shorten_idempotent_of_trimmed _ 5 (by decide)⟩

/-- Counterexample for C2 as stated: on `"abcd efghi"` with max length 5 the
first application yields `"abcd..."` (the trailing space is trimmed before
the ellipsis is appended), and a second application yields `"abcd...."`, so
`shorten` is not idempotent in general. -/
theorem shorten_not_idempotent :
    shorten (shorten ['a', 'b', 'c', 'd', ' ', 'e', 'f', 'g', 'h', 'i'] 5) 5 ≠
      shorten ['a', 'b', 'c', 'd', ' ', 'e', 'f', 'g', 'h', 'i'] 5 := by decide

/-- Helper: a failed avatar load rejects the post-overlay pipeline. -/
theorem buildRest_avatar_error (loadImage : StrOrBuf → Except ImageError Image)
    (meas : String → String → ℚ) (abbrev2 : Option ℚ → String)
    (d : CardData) (fonts : BuildFonts) (ctx : Canvas2D) (e : ImageError)
    (hav : loadImage d.avatar.source = Except.error e) :
    RankCard.buildRest loadImage meas abbrev2 d fonts ctx = Except.error e := by
  unfold RankCard.buildRest
  rw [hav]

/-- C8: if loading the avatar image fails, or the background type is `image`
and loading the background image fails, then `build` rejects with an error,
and in particular yields no operation trace (the model of the buffer). -/
theorem build_rejects_on_image_error (loadImage : StrOrBuf → Except ImageError Image)
    (meas : String → String → ℚ) (abbrev2 : Option ℚ → String)
    (d : CardData) (fonts : BuildFonts)
    (hfail : (∃ e, loadImage d.avatar.source = Except.error e) ∨
      (d.background.type = BackgroundType.image ∧
        ∃ e, loadImage d.background.value = Except.error e)) :
    ∃ e, RankCard.build loadImage meas abbrev2 d fonts = Except.error e := by
  rcases hfail with ⟨e, hav⟩ | ⟨htype, e, hbg⟩
  · cases htypebg : d.background.type with
    | image =>
      cases hbgload : loadImage d.background.value with
      | error e2 =>
        exact ⟨e2, by simp only [RankCard.build, htypebg, hbgload]⟩
      | ok bg =>
        refine ⟨e, ?_⟩
        simp only [RankCard.build, htypebg, hbgload,
          buildRest_avatar_error loadImage meas abbrev2 d fonts _ e hav]
    | colour =>
      refine ⟨e, ?_⟩
      simp only [RankCard.build, htypebg,
        buildRest_avatar_error loadImage meas abbrev2 d fonts _ e hav]
  · refine ⟨e, ?_⟩
    simp only [RankCard.build, htype, hbg]

/-- A loader that always fails (every fetch rejects). -/
def loadNever : StrOrBuf → Except ImageError Image :=
  fun s => Except.error (ImageError.loadFailed s)

/-- Witness for C8: with an always-failing loader the build of a concrete
card rejects. -/
theorem build_rejects_on_image_error_witness :
    ∃ e, RankCard.build loadNever (fun _ _ => 0) (fun _ => "")
      (RankCard.init id inputRank3) { bold := "Lyons", regular := "Lyons" } =
      Except.error e :=
  build_rejects_on_image_error loadNever (fun _ _ => 0) (fun _ => "")
    (RankCard.init id inputRank3) { bold := "Lyons", regular := "Lyons" }
    (Or.inl ⟨ImageError.loadFailed (RankCard.init id inputRank3).avatar.source, rfl⟩)


set_option maxHeartbeats 1000000 in
theorem buildRest_ops (loadImage : StrOrBuf → Except ImageError Image)
    (meas : String → String → ℚ) (abbrev2 : Option ℚ → String)
    (d : CardData) (fonts : BuildFonts) (ctx : Canvas2D)
    (img : Image) (hav : loadImage d.avatar.source = Except.ok img) :
    ∃ ctx2, RankCard.buildRest loadImage meas abbrev2 d fonts ctx = Except.ok ctx2 ∧
      ∃ rest, ctx2.ops = ctx.ops ++ rest ∧
        ∀ op ∈ rest, opAlpha op = ctx.state.globalAlpha := by
  obtain ⟨w, h, bg, pb, av, st, ov, rk, lv, cxp, rxp, disc, un⟩ := d
  obtain ⟨pbr, pbx, pby, pbh, pbw, pbtrack, pbbar⟩ := pb
  obtain ⟨pbbt, pbbv⟩ := pbbar
  obtain ⟨stw, stt, stc, stcirc⟩ := st
  obtain ⟨rkd, rkc, rks, rkdisp, rkdt⟩ := rk
  obtain ⟨lvd, lvc, lvs, lvdisp, lvdt⟩ := lv
  cases stcirc <;> cases pbbt <;> cases pbr <;> cases lvdisp <;> cases rkdisp <;>
  · unfold RankCard.buildRest
    rw [hav]
    dsimp only [Canvas2D.setFont, Canvas2D.setFillStyle, Canvas2D.setTextAlign,
      Canvas2D.fillText, Canvas2D.save, Canvas2D.beginPath, Canvas2D.arc, Canvas2D.closePath,
      Canvas2D.clip, Canvas2D.drawImage, Canvas2D.restore, Canvas2D.setStrokeStyle,
      Canvas2D.setLineWidth, Canvas2D.stroke, Canvas2D.fill, Canvas2D.fillRect,
      Canvas2D.strokeRect, Canvas2D.setGlobalAlpha, StrOrStrs.asStr, StrOrStrs.asStrs]
    simp only [Bool.false_eq_true, eq_self_iff_true, if_true, if_false,
      List.append_assoc, List.cons_append, List.nil_append, List.singleton_append]
    refine ⟨_, rfl, ?_⟩
    refine ⟨_, rfl, ?_⟩
    simp [opAlpha, List.forall_mem_cons]

set_option maxHeartbeats 1000000 in
theorem build_overlay_split (loadImage : StrOrBuf → Except ImageError Image)
    (meas : String → String → ℚ) (abbrev2 : Option ℚ → String)
    (d : CardData) (fonts : BuildFonts)
    (hload : ∀ s, ∃ i, loadImage s = Except.ok i)
    (hdisp : d.overlay.display = true) :
    ∃ tr pre post, RankCard.build loadImage meas abbrev2 d fonts = Except.ok tr ∧
      tr = pre ++ CtxOp.fillRect (jsOrNum d.overlay.level 1)
        (FillStyle.colour d.overlay.colour) 20 20 (d.width - 40) (d.height - 40) :: post ∧
      (∀ op ∈ pre, opAlpha op = 1) ∧
      (∀ op ∈ post, opAlpha op = 1) := by
  obtain ⟨img, hav⟩ := hload d.avatar.source
  cases hbt : d.background.type with
  | image =>
    obtain ⟨bg, hbg⟩ := hload d.background.value
    have hbuild : RankCard.build loadImage meas abbrev2 d fonts =
        match RankCard.buildRest loadImage meas abbrev2 d fonts
          (((((Canvas2D.init.drawImage bg 0 0 d.width d.height).setGlobalAlpha
            (jsOrNum d.overlay.level 1)).setFillStyle
            (FillStyle.colour d.overlay.colour)).fillRect 20 20 (d.width - 40)
            (d.height - 40)).setGlobalAlpha 1) with
        | Except.error e => Except.error e
        | Except.ok ctx => Except.ok ctx.ops := by
      simp only [RankCard.build, hbt, hbg, hdisp, eq_self_iff_true, if_true]
    obtain ⟨ctx2, hok, rest, hops, halpha⟩ :=
      buildRest_ops loadImage meas abbrev2 d fonts
        (((((Canvas2D.init.drawImage bg 0 0 d.width d.height).setGlobalAlpha
          (jsOrNum d.overlay.level 1)).setFillStyle
          (FillStyle.colour d.overlay.colour)).fillRect 20 20 (d.width - 40)
          (d.height - 40)).setGlobalAlpha 1) img hav
    refine ⟨ctx2.ops, [CtxOp.drawImage 1 [] bg 0 0 d.width d.height], rest, ?_, ?_, ?_, ?_⟩
    · rw [hbuild, hok]
    · rw [hops]
      dsimp only [Canvas2D.init, Canvas2D.drawImage, Canvas2D.setGlobalAlpha,
        Canvas2D.setFillStyle, Canvas2D.fillRect]
      simp
    · simp [opAlpha]
    · intro op hop
      exact halpha op hop
  | colour =>
    have hbuild : RankCard.build loadImage meas abbrev2 d fonts =
        match RankCard.buildRest loadImage meas abbrev2 d fonts
          ((((((Canvas2D.init.setFillStyle
            (FillStyle.colour d.background.value.asString)).fillRect 0 0 d.width
            d.height).setGlobalAlpha (jsOrNum d.overlay.level 1)).setFillStyle
            (FillStyle.colour d.overlay.colour)).fillRect 20 20 (d.width - 40)
            (d.height - 40)).setGlobalAlpha 1) with
        | Except.error e => Except.error e
        | Except.ok ctx => Except.ok ctx.ops := by
      simp only [RankCard.build, hbt, hdisp, eq_self_iff_true, if_true]
    obtain ⟨ctx2, hok, rest, hops, halpha⟩ :=
      buildRest_ops loadImage meas abbrev2 d fonts
        ((((((Canvas2D.init.setFillStyle
          (FillStyle.colour d.background.value.asString)).fillRect 0 0 d.width
          d.height).setGlobalAlpha (jsOrNum d.overlay.level 1)).setFillStyle
          (FillStyle.colour d.overlay.colour)).fillRect 20 20 (d.width - 40)
          (d.height - 40)).setGlobalAlpha 1) img hav
    refine ⟨ctx2.ops,
      [CtxOp.fillRect 1 (FillStyle.colour d.background.value.asString) 0 0 d.width d.height],
      rest, ?_, ?_, ?_, ?_⟩
    · rw [hbuild, hok]
    · rw [hops]
      dsimp only [Canvas2D.init, Canvas2D.drawImage, Canvas2D.setGlobalAlpha,
        Canvas2D.setFillStyle, Canvas2D.fillRect]
      simp
    · simp [opAlpha]
    · intro op hop
      exact halpha op hop

/-- A loader that always succeeds with a fixed decoded image. -/
def loadOk : StrOrBuf → Except ImageError Image := fun _ => Except.ok { tag := "img" }

/-- A text-measurer stub (measured widths do not affect the claims). -/
def measZero : String → String → ℚ := fun _ _ => 0

/-- A number-abbreviation stub. -/
def abbrevEmpty : Option ℚ → String := fun _ => ""

/-- The default build fonts of the source. -/
def fontsLyons : BuildFonts := { bold := "Lyons", regular := "Lyons" }

/-- A concrete default card. -/
def cardDefault : CardData := RankCard.init id inputRank3

/-- The concrete default card with its overlay opacity set to exactly 0. -/
def cardOverlayZero : CardData :=
  RankCard.setOverlay (RankCard.init id inputRank3) "#333640" 0 true

/-- Counterexample for C3 as stated: the concrete card `cardOverlayZero` has
its overlay displayed with configured opacity exactly 0, yet its build trace
contains the overlay rectangle drawn under global alpha 1, and no operation
of the trace at all is drawn under the configured opacity 0. -/
theorem build_overlay_opacity_zero_cex :
    cardOverlayZero.overlay.display = true ∧
    cardOverlayZero.overlay.level = 0 ∧
    ∃ tr, RankCard.build loadOk measZero abbrevEmpty cardOverlayZero fontsLyons =
        Except.ok tr ∧
      CtxOp.fillRect 1 (FillStyle.colour cardOverlayZero.overlay.colour) 20 20
        (cardOverlayZero.width - 40) (cardOverlayZero.height - 40) ∈ tr ∧
      ∀ op ∈ tr, opAlpha op ≠ cardOverlayZero.overlay.level := by
  have hlvl : cardOverlayZero.overlay.level = 0 := rfl
  refine ⟨rfl, hlvl, ?_⟩
  obtain ⟨tr, pre, post, h1, h2, h3, h4⟩ :=
    build_overlay_split loadOk measZero abbrevEmpty cardOverlayZero fontsLyons
      (fun _ => ⟨{ tag := "img" }, rfl⟩) rfl
  have hj : jsOrNum cardOverlayZero.overlay.level 1 = 1 := by
    rw [hlvl]
    norm_num [jsOrNum]
  rw [hj] at h2
  have hall : ∀ op ∈ tr, opAlpha op = 1 := by
    intro op hop
    rw [h2] at hop
    rcases List.mem_append.mp hop with hpre | hrest
    · exact h3 op hpre
    · rcases List.mem_cons.mp hrest with heq | hpost
      · rw [heq]
        rfl
      · exact h4 op hpost
  refine ⟨tr, h1, ?_, ?_⟩
  · rw [h2]
    exact List.mem_append_right _ (List.mem_cons_self _ _)
  · intro op hop
    rw [hall op hop, hlvl]
    norm_num

/-- C3 (amended): for every card whose overlay is displayed (with successful
image loads), the build trace contains the overlay rectangle drawn under
global alpha `overlay.level || 1` — the configured opacity for non-zero
opacities, but `1` when the opacity is exactly `0` — and every operation
after it is issued under global alpha `1` (the reset). -/
theorem build_overlay_alpha (loadImage : StrOrBuf → Except ImageError Image)
    (meas : String → String → ℚ) (abbrev2 : Option ℚ → String)
    (d : CardData) (fonts : BuildFonts)
    (hload : ∀ s, ∃ i, loadImage s = Except.ok i)
    (hdisp : d.overlay.display = true) :
    ∃ tr pre post, RankCard.build loadImage meas abbrev2 d fonts = Except.ok tr ∧
      tr = pre ++ CtxOp.fillRect (jsOrNum d.overlay.level 1)
        (FillStyle.colour d.overlay.colour) 20 20 (d.width - 40) (d.height - 40) :: post ∧
      ∀ op ∈ post, opAlpha op = 1 := by
  obtain ⟨tr, pre, post, h1, h2, _, h4⟩ :=
    build_overlay_split loadImage meas abbrev2 d fonts hload hdisp
  exact ⟨tr, pre, post, h1, h2, h4⟩

/-- Witness for C3 (amended) at the concrete default card. -/
theorem build_overlay_alpha_witness :
    ∃ tr pre post,
      RankCard.build loadOk measZero abbrevEmpty cardDefault fontsLyons = Except.ok tr ∧
      tr = pre ++ CtxOp.fillRect (jsOrNum cardDefault.overlay.level 1)
        (FillStyle.colour cardDefault.overlay.colour) 20 20
        (cardDefault.width - 40) (cardDefault.height - 40) :: post ∧
      ∀ op ∈ post, opAlpha op = 1 :=
  build_overlay_alpha loadOk measZero abbrevEmpty cardDefault fontsLyons
    (fun _ => ⟨{ tag := "img" }, rfl⟩) rfl

/-- Helper: the post-overlay pipeline never reads the overlay data. -/
theorem buildRest_overlay_irrel (loadImage : StrOrBuf → Except ImageError Image)
    (meas : String → String → ℚ) (abbrev2 : Option ℚ → String)
    (fonts : BuildFonts) (ctx : Canvas2D) (d : CardData) (o : OverlayData) :
    RankCard.buildRest loadImage meas abbrev2 { d with overlay := o } fonts ctx =
      RankCard.buildRest loadImage meas abbrev2 d fonts ctx := rfl

/-- C9: when a displayed overlay's opacity is exactly 0, the falsy value is
replaced by 1, so the overlay rectangle is drawn fully opaque, and the whole
build trace is identical to the trace of the same card with opacity 1. -/
theorem build_overlay_zero_draws_opaque (loadImage : StrOrBuf → Except ImageError Image)
    (meas : String → String → ℚ) (abbrev2 : Option ℚ → String)
    (d : CardData) (fonts : BuildFonts)
    (hload : ∀ s, ∃ i, loadImage s = Except.ok i)
    (hdisp : d.overlay.display = true) (hlvl : d.overlay.level = 0) :
    (∃ tr pre post, RankCard.build loadImage meas abbrev2 d fonts = Except.ok tr ∧
      tr = pre ++ CtxOp.fillRect 1 (FillStyle.colour d.overlay.colour) 20 20
        (d.width - 40) (d.height - 40) :: post) ∧
    RankCard.build loadImage meas abbrev2 d fonts =
      RankCard.build loadImage meas abbrev2
        (RankCard.setOverlay d d.overlay.colour 1 d.overlay.display) fonts := by
  have h01 : jsOrNum 0 1 = 1 := by norm_num [jsOrNum]
  have h11 : jsOrNum (1 : ℚ) 1 = 1 := by norm_num [jsOrNum]
  constructor
  · obtain ⟨tr, pre, post, h1, h2, _, _⟩ :=
      build_overlay_split loadImage meas abbrev2 d fonts hload hdisp
    rw [hlvl, h01] at h2
    exact ⟨tr, pre, post, h1, h2⟩
  · simp only [RankCard.build, RankCard.setOverlay, hlvl, h01, h11,
      buildRest_overlay_irrel]

/-- Witness for C9 at the concrete card with overlay opacity 0. -/
theorem build_overlay_zero_draws_opaque_witness :
    (∃ tr pre post,
      RankCard.build loadOk measZero abbrevEmpty cardOverlayZero fontsLyons = Except.ok tr ∧
      tr = pre ++ CtxOp.fillRect 1 (FillStyle.colour cardOverlayZero.overlay.colour) 20 20
        (cardOverlayZero.width - 40) (cardOverlayZero.height - 40) :: post) ∧
    RankCard.build loadOk measZero abbrevEmpty cardOverlayZero fontsLyons =
      RankCard.build loadOk measZero abbrevEmpty
        (RankCard.setOverlay cardOverlayZero cardOverlayZero.overlay.colour 1
          cardOverlayZero.overlay.display) fontsLyons :=
  build_overlay_zero_draws_opaque loadOk measZero abbrevEmpty cardOverlayZero fontsLyons
    (fun _ => ⟨{ tag := "img" }, rfl⟩) rfl rfl
